import Mathlib

/-!
Shallow embedding of `master/buildbot/reporters/message.py` (the buildbot
message-formatting engine): status-text derivation, context assembly,
template resolution and message rendering, together with theorems checking
the natural-language specification against this embedding.

Python conventions carried over explicitly:
* build result codes are the numeric constants of `buildbot.process.results`
  (SUCCESS = 0, ..., CANCELLED = 6);
* an optional value is `Option`; Python truthiness of an optional int is
  "not None and not 0", of an optional string "not None and not empty";
* a Python dict is a total function into `Option`, and `dict.update` gives
  the updating map precedence on its keys.
-/

set_option autoImplicit false

namespace Buildbot

/-- Result code SUCCESS (buildbot.process.results). -/
def SUCCESS : Nat := 0

/-- Result code WARNINGS (buildbot.process.results). -/
def WARNINGS : Nat := 1

/-- Result code FAILURE (buildbot.process.results). -/
def FAILURE : Nat := 2

/-- Result code SKIPPED (buildbot.process.results). -/
def SKIPPED : Nat := 3

/-- Result code EXCEPTION (buildbot.process.results). -/
def EXCEPTION : Nat := 4

/-- Result code RETRY (buildbot.process.results). -/
def RETRY : Nat := 5

/-- Result code CANCELLED (buildbot.process.results). -/
def CANCELLED : Nat := 6

/-- Modelled from the spec: `statusToString` of `buildbot.process.results`
(imported by message.py but not part of the staged sources) returns "the
canonical display name of that result code"; the display names are the
entries of the Results list, one per valid code 0..6. -/
def statusToString (status : Nat) : String :=
  if status = SUCCESS then "success"
  else if status = WARNINGS then "warnings"
  else if status = FAILURE then "failure"
  else if status = SKIPPED then "skipped"
  else if status = EXCEPTION then "exception"
  else if status = RETRY then "retry"
  else if status = CANCELLED then "cancelled"
  else "wrong status"

/-- Python truthiness of an optional integer: None and 0 are falsy. -/
def truthyOptNat : Option Nat → Bool
  | none => false
  | some n => n != 0

/-- Python truthiness of an optional string: None and "" are falsy. -/
def truthyOptStr : Option String → Bool
  | none => false
  | some s => !s.isEmpty

/-- `get_detected_status_text(mode, results, previous_results)` from
message.py, lines 35-55. `mode` is the reporting-mode collection of string
tags; `previous_results` is None when no previous build is known. -/
def get_detected_status_text (mode : List String) (results : Nat)
    (previous_results : Option Nat) : String :=
  if results = FAILURE then
    if "change" ∈ mode ∧ previous_results ≠ none ∧ previous_results ≠ some results then
      "new failure"
    else if "problem" ∈ mode ∧ truthyOptNat previous_results = true ∧
        previous_results ≠ some FAILURE then
      "new failure"
    else
      "failed build"
  else if results = WARNINGS then
    "problem in the build"
  else if results = SUCCESS then
    if "change" ∈ mode ∧ previous_results ≠ none ∧ previous_results ≠ some results then
      "restored build"
    else
      "passing build"
  else if results = EXCEPTION then
    "build exception"
  else
    statusToString results ++ " build"

/-- A source stamp record: the fields message.py reads. `patch` is an opaque
marker whose only observable property here is presence. -/
structure SourceStamp where
  branch : Option String
  revision : Option String
  patch : Option Unit
  codebase : Option String
  project : Option String

/-- The build record fields message.py reads. `properties` maps a property
name to its (value, source) pair; `buildset` is reduced to its sourcestamp
list; `prev_build` is reduced to the previous build's `results`, None when
the key is absent or its value is None. -/
structure Build where
  results : Nat
  state_string : String
  properties : String → Option (String × String)
  builderid : Nat
  number : Nat
  buildset : List SourceStamp
  prev_build : Option Nat

/-- The master record fields message.py reads (master.config.title and
master.config.buildbotURL). -/
structure Master where
  title : String
  buildbotURL : String

/-- `get_message_summary_text(build, results)` from message.py, lines 58-74. -/
def get_message_summary_text (build : Build) (results : Nat) : String :=
  let t := build.state_string
  let t := if !t.isEmpty then ": " ++ t else ""
  if results = SUCCESS then
    "Build succeeded!"
  else if results = WARNINGS then
    "Build Had Warnings" ++ t
  else if results = CANCELLED then
    "Build was cancelled"
  else
    "BUILD FAILED" ++ t

/-- `get_message_source_stamp_text(source_stamps)` from message.py, lines
77-100: a fold over the stamps accumulating one formatted line each. -/
def get_message_source_stamp_text (source_stamps : List SourceStamp) : String :=
  source_stamps.foldl
    (fun text ss =>
      let source := ""
      let source := if truthyOptStr ss.branch then
          source ++ "[branch " ++ ss.branch.getD "" ++ "] " else source
      let source := if truthyOptStr ss.revision then
          source ++ ss.revision.getD "" else source ++ "HEAD"
      let source := if ss.patch.isSome then source ++ " (plus patch)" else source
      let discriminator := if truthyOptStr ss.codebase then
          " '" ++ ss.codebase.getD "" ++ "'" else ""
      text ++ "Build Source Stamp" ++ discriminator ++ ": " ++ source ++ "\n")
    ""

/-- `get_projects_text(source_stamps, master)` from message.py, lines
103-113: the set of truthy project fields (modelled as a deduplicated list),
falling back to the master's title, joined with ", ". -/
def get_projects_text (source_stamps : List SourceStamp) (master : Master) : String :=
  let projects := (source_stamps.filterMap
    (fun ss => if truthyOptStr ss.project then some (ss.project.getD "") else none)).dedup
  let projects := if projects.isEmpty then [master.title] else projects
  String.intercalate ", " projects

/-- Modelled from the spec: the templating language (jinja2, external to the
staged sources) is "opaque to this spec beyond the context-key substitution
contract", so a template source is a parsed sequence of literal segments and
variable references. An empty source sequence models the empty (falsy)
template string. -/
inductive Tok where
  | lit (s : String)
  | var (k : String)
deriving DecidableEq

/-- A template source: the parsed content of an inline string or a template
file. -/
abbrev TmplSrc := List Tok

/-- Python truthiness of an optional template source: None and the empty
string are falsy. -/
def truthyOptTmpl : Option TmplSrc → Bool
  | none => false
  | some l => !l.isEmpty

/-- The variables a template source references. -/
def referencedVariables : TmplSrc → List String
  | [] => []
  | Tok.lit _ :: rest => referencedVariables rest
  | Tok.var k :: rest => k :: referencedVariables rest

/-- The context values message.py places in a rendering context dict. -/
inductive PyValue where
  | vStr (s : String)
  | vNat (n : Nat)
  | vOptNat (n : Option Nat)
  | vStrList (l : List String)
  | vBuild (b : Build)
  | vBuildset (bs : List SourceStamp)

/-- Modelled from the spec: rendering stringifies a substituted context value
(Python str()); the exact text of structured values is opaque to the spec, so
records render as fixed tags while strings and numbers render canonically. -/
def PyValue.toStr : PyValue → String
  | .vStr s => s
  | .vNat n => toString n
  | .vOptNat none => "None"
  | .vOptNat (some n) => toString n
  | .vStrList l => String.intercalate ", " l
  | .vBuild _ => "<build>"
  | .vBuildset _ => "<buildset>"

/-- A Python dict keyed by strings: a total function into Option. -/
def PyDict : Type := String → Option PyValue

/-- `d.update(u)`: the updating dict wins on its own keys, all other keys
keep their prior value; no key is removed. -/
def PyDict.update (d u : PyDict) : PyDict :=
  fun k =>
    match u k with
    | some v => some v
    | none => d k

/-- Rendering failure: with strict-undefined semantics a referenced context
key that is absent raises. -/
inductive RenderErr where
  | undefinedVariable (k : String)
deriving DecidableEq

/-- A compiled template: its source and whether it was compiled with
strict-undefined semantics. message.py compiles inline content with
jinja2.Template(content) (default, lenient undefined) and file content in an
Environment with undefined=jinja2.StrictUndefined. -/
structure Template where
  src : TmplSrc
  strict : Bool

/-- Modelled from the spec: jinja2 rendering of a token sequence. A missing
referenced key raises under strict-undefined semantics and silently renders
as the empty string otherwise. -/
def renderToks (strict : Bool) (ctx : PyDict) : TmplSrc → Except RenderErr String
  | [] => .ok ""
  | Tok.lit s :: rest =>
      match renderToks strict ctx rest with
      | .error e => .error e
      | .ok r => .ok (s ++ r)
  | Tok.var k :: rest =>
      match ctx k with
      | some v =>
          match renderToks strict ctx rest with
          | .error e => .error e
          | .ok r => .ok (PyValue.toStr v ++ r)
      | none =>
          if strict then .error (.undefinedVariable k)
          else
            match renderToks strict ctx rest with
            | .error e => .error e
            | .ok r => .ok ("" ++ r)

/-- Render a compiled template over a context. -/
def Template.render (t : Template) (ctx : PyDict) : Except RenderErr String :=
  renderToks t.strict ctx t.src

/-- Errors raised while resolving a template: `config.error` raises a
ConfigurationError (buildbot.config, external), and `env.get_template`
raises TemplateNotFound for an absent file. -/
inductive TemplateError where
  | configurationError (msg : String)
  | templateNotFound (filename : String)
deriving DecidableEq

/-- The bundled template directory, os.path.join(os.path.dirname(__file__),
"templates"): a fixed path alongside message.py. -/
def bundled_templates_dir : String := "master/buildbot/reporters/templates"

/-- `MessageFormatterBase.getTemplate(filename, dirname, content)` from
message.py, lines 140-157. `default_template_filename` is the class attribute
`self.template_filename`; `fs` maps a directory and a filename to the parsed
content of that template file, when it exists. -/
def getTemplate (default_template_filename : String)
    (fs : String → String → Option TmplSrc)
    (filename : Option String) (dirname : Option String)
    (content : Option TmplSrc) : Except TemplateError Template :=
  if truthyOptTmpl content = true ∧
      (truthyOptStr filename = true ∨ truthyOptStr dirname = true) then
    .error (.configurationError "Only one of template or template path can be given")
  else if truthyOptTmpl content = true then
    .ok { src := content.getD [], strict := false }
  else
    let dirname := dirname.getD bundled_templates_dir
    let filename := filename.getD default_template_filename
    match fs dirname filename with
    | some src => .ok { src := src, strict := true }
    | none => .error (.templateNotFound filename)

/-- A constructed formatter: the state MessageFormatterBase.__init__ leaves
behind (body template, optional subject template, type tag, extra context). -/
structure Formatter where
  body_template : Template
  subject_template : Option Template
  template_type : String
  ctx : PyDict

/-- The message dict renderMessage returns: body and type always, subject
exactly when a subject template is configured. -/
structure MsgDict where
  body : String
  type : String
  subject : Option String

/-- `MessageFormatterBase.renderMessage(ctx)` from message.py, lines
162-167. -/
def renderMessage (f : Formatter) (ctx : PyDict) : Except RenderErr MsgDict :=
  match f.body_template.render ctx with
  | .error e => .error e
  | .ok body =>
      match f.subject_template with
      | some st =>
          match st.render ctx with
          | .error e => .error e
          | .ok subject =>
              .ok { body := body, type := f.template_type, subject := some subject }
      | none =>
          .ok { body := body, type := f.template_type, subject := none }

/-- `MessageFormatterBase.__init__` from message.py, lines 122-138.
`cls_template_filename` and `cls_template_type` are the class attributes the
instance inherits. -/
def MessageFormatterBase_init (cls_template_filename cls_template_type : String)
    (fs : String → String → Option TmplSrc)
    (template_dir : Option String) (template_filename : Option String)
    (template : Option TmplSrc)
    (subject_filename : Option String) (subject : Option TmplSrc)
    (template_type : Option String) (ctx : Option PyDict) :
    Except TemplateError Formatter :=
  match getTemplate cls_template_filename fs template_filename template_dir template with
  | .error e => .error e
  | .ok body =>
      if truthyOptStr subject_filename = true ∨ truthyOptTmpl subject = true then
        match getTemplate cls_template_filename fs subject_filename template_dir subject with
        | .error e => .error e
        | .ok st =>
            .ok { body_template := body
                  subject_template := some st
                  template_type := template_type.getD cls_template_type
                  ctx := ctx.getD (fun _ => none) }
      else
        .ok { body_template := body
              subject_template := none
              template_type := template_type.getD cls_template_type
              ctx := ctx.getD (fun _ => none) }

/-- The base rendering context `ctx` that
`MessageFormatter.format_message_for_build` (message.py, lines 196-224)
assembles before the extension hook runs. `getURLForBuild` stands for
`buildbot.reporters.utils.getURLForBuild`, an external collaborator supplied
by the caller side. -/
def build_base_context (getURLForBuild : Master → Nat → Nat → String)
    (mode : List String) (buildername : String) (build : Build)
    (master : Master) (blamelist : List String) : PyDict :=
  let buildset := build.buildset
  let ss_list := buildset
  let results := build.results
  let previous_results := build.prev_build
  fun k =>
    if k = "results" then some (.vNat build.results)
    else if k = "mode" then some (.vStrList mode)
    else if k = "buildername" then some (.vStr buildername)
    else if k = "workername" then
      some (.vStr (match build.properties "workername" with
        | some p => p.1
        | none => "<unknown>"))
    else if k = "buildset" then some (.vBuildset buildset)
    else if k = "build" then some (.vBuild build)
    else if k = "projects" then some (.vStr (get_projects_text ss_list master))
    else if k = "previous_results" then some (.vOptNat previous_results)
    else if k = "status_detected" then
      some (.vStr (get_detected_status_text mode results previous_results))
    else if k = "build_url" then
      some (.vStr (getURLForBuild master build.builderid build.number))
    else if k = "buildbot_url" then some (.vStr master.buildbotURL)
    else if k = "blamelist" then some (.vStrList blamelist)
    else if k = "summary" then some (.vStr (get_message_summary_text build results))
    else if k = "sourcestamps" then
      some (.vStr (get_message_source_stamp_text ss_list))
    else none

/-- The context `MessageFormatter.format_message_for_build` passes to
renderMessage: the base context, transformed by the buildAdditionalContext
extension hook, then updated with the formatter's preconfigured extra
context `self.ctx` (message.py, lines 225-226). The hook may rewrite the
dict arbitrarily. -/
def format_message_for_build_ctx (f : Formatter) (hook : PyDict → PyDict)
    (getURLForBuild : Master → Nat → Nat → String)
    (mode : List String) (buildername : String) (build : Build)
    (master : Master) (blamelist : List String) : PyDict :=
  PyDict.update
    (hook (build_base_context getURLForBuild mode buildername build master blamelist))
    f.ctx

/-- `MessageFormatter.format_message_for_build` from message.py, lines
196-228. -/
def format_message_for_build (f : Formatter) (hook : PyDict → PyDict)
    (getURLForBuild : Master → Nat → Nat → String)
    (mode : List String) (buildername : String) (build : Build)
    (master : Master) (blamelist : List String) : Except RenderErr MsgDict :=
  renderMessage f
    (format_message_for_build_ctx f hook getURLForBuild mode buildername build
      master blamelist)

/-- The base context `MessageFormatterMissingWorker.formatMessageForMissingWorker`
assembles (message.py, lines 236-238). The worker record is opaque and passed
through; it is modelled by its name. -/
def missing_worker_base_context (master : Master) (worker : String) : PyDict :=
  fun k =>
    if k = "buildbot_title" then some (.vStr master.title)
    else if k = "buildbot_url" then some (.vStr master.buildbotURL)
    else if k = "worker" then some (.vStr worker)
    else none

/-- The context `formatMessageForMissingWorker` passes to renderMessage:
base context, then the hook, then `ctx.update(self.ctx)` (message.py, lines
239-240). -/
def formatMessageForMissingWorker_ctx (f : Formatter) (hook : PyDict → PyDict)
    (master : Master) (worker : String) : PyDict :=
  PyDict.update (hook (missing_worker_base_context master worker)) f.ctx

/-- `MessageFormatterMissingWorker.formatMessageForMissingWorker` from
message.py, lines 235-242. -/
def formatMessageForMissingWorker (f : Formatter) (hook : PyDict → PyDict)
    (master : Master) (worker : String) : Except RenderErr MsgDict :=
  renderMessage f (formatMessageForMissingWorker_ctx f hook master worker)

/-- The per-stamp line as the spec words it: "Build Source Stamp" plus the
quoted codebase when non-empty, then ": ", then the branch marker when the
branch is non-empty, then the revision (or "HEAD"), then the patch marker,
then a newline. -/
def source_stamp_line_spec (ss : SourceStamp) : String :=
  "Build Source Stamp" ++
    (if truthyOptStr ss.codebase then " '" ++ ss.codebase.getD "" ++ "'" else "") ++
    ": " ++
    (if truthyOptStr ss.branch then "[branch " ++ ss.branch.getD "" ++ "] " else "") ++
    (if truthyOptStr ss.revision then ss.revision.getD "" else "HEAD") ++
    (if ss.patch.isSome then " (plus patch)" else "") ++ "\n"

/-- Lenient (non-strict) rendering as the jinja2 default performs it: a
referenced key absent from the context is silently replaced by the empty
string. -/
def renderLenient (ctx : PyDict) : TmplSrc → String
  | [] => ""
  | Tok.lit s :: rest => s ++ renderLenient ctx rest
  | Tok.var k :: rest =>
      (match ctx k with
        | some v => v.toStr
        | none => "") ++ renderLenient ctx rest

/-- A concrete inline-style formatter, with a subject template configured,
used as a witness input. -/
def sample_formatter : Formatter :=
  { body_template := { src := [Tok.lit "hi"], strict := false }
    subject_template := some { src := [Tok.lit "subj"], strict := false }
    template_type := "plain"
    ctx := fun _ => none }

/-- A concrete empty rendering context used as a witness input. -/
def sample_ctx : PyDict := fun _ => none

/-- The message sample_formatter renders over sample_ctx: its subject is the
subject template's rendering. -/
def sample_msg : MsgDict :=
  { body := "hi", type := "plain", subject := some "subj" }

/-- A concrete filesystem holding the default body template file in the
bundled directory. -/
def sample_fs : String → String → Option TmplSrc :=
  fun d fl =>
    if d = bundled_templates_dir ∧ fl = "default_mail.txt" then
      some [Tok.lit "body"]
    else
      none

/-- The formatter MessageFormatterBase_init builds over sample_fs with no
inline content and an empty-string subject. -/
def sample_file_formatter : Formatter :=
  { body_template := { src := [Tok.lit "body"], strict := true }
    subject_template := none
    template_type := "plain"
    ctx := fun _ => none }

/-- A concrete filesystem whose default body template references the context
key "x". -/
def sample_fs_var : String → String → Option TmplSrc :=
  fun d fl =>
    if d = bundled_templates_dir ∧ fl = "default_mail.txt" then
      some [Tok.var "x"]
    else
      none

example : get_detected_status_text ["change"] FAILURE (some WARNINGS) = "new failure" := by
  decide

example : get_detected_status_text ["change"] FAILURE (some FAILURE) = "failed build" := by
  decide

example : get_detected_status_text [] CANCELLED none = "cancelled build" := by decide

example :
    get_message_source_stamp_text
      [⟨some "main", some "abc123", none, some "", none⟩] =
      "Build Source Stamp: [branch main] abc123\n" := by
  decide

/-- Python truthiness of an optional int is "known, non-null and
non-zero-equivalent". -/
theorem truthyOptNat_iff (o : Option Nat) :
    truthyOptNat o = true ↔ o ≠ none ∧ o ≠ some SUCCESS := by
  cases o with
  | none => simp [truthyOptNat]
  | some p => simp [truthyOptNat, SUCCESS]

/-- Claim C2: with results = FAILURE, get_detected_status_text returns
"new failure" when mode contains "change" and previous_results is known and
differs from FAILURE; otherwise "new failure" when mode contains "problem"
and previous_results is truthy (known, non-null, non-zero-equivalent) and
differs from FAILURE; otherwise "failed build". The "change" branch is
evaluated first and the first matching rule wins. -/
theorem detected_status_text_failure_rules (mode : List String)
    (previous_results : Option Nat) :
    get_detected_status_text mode FAILURE previous_results =
      if "change" ∈ mode ∧ previous_results ≠ none ∧
          previous_results ≠ some FAILURE then
        "new failure"
      else if "problem" ∈ mode ∧ (previous_results ≠ none ∧
          previous_results ≠ some SUCCESS) ∧ previous_results ≠ some FAILURE then
        "new failure"
      else
        "failed build" := by
  unfold get_detected_status_text
  rw [if_pos (rfl : FAILURE = FAILURE)]
  by_cases hc : "change" ∈ mode ∧ previous_results ≠ none ∧
      previous_results ≠ some FAILURE
  · rw [if_pos hc, if_pos hc]
  · rw [if_neg hc, if_neg hc]
    by_cases hp : "problem" ∈ mode ∧ truthyOptNat previous_results = true ∧
        previous_results ≠ some FAILURE
    · rw [if_pos hp,
        if_pos ⟨hp.1, (truthyOptNat_iff previous_results).mp hp.2.1, hp.2.2⟩]
    · rw [if_neg hp, if_neg ?_]
      intro hx
      exact hp ⟨hx.1, (truthyOptNat_iff previous_results).mpr hx.2.1, hx.2.2⟩

/-- Claim C4: get_message_summary_text returns "Build succeeded!" for
SUCCESS, "Build Had Warnings" plus the suffix for WARNINGS, "Build was
cancelled" for CANCELLED with no suffix, and "BUILD FAILED" plus the suffix
for every other result code, the suffix being ": " followed by
build.state_string when that is non-empty and "" otherwise. -/
theorem summary_text_rules (build : Build) (results : Nat)
    (h1 : results ≠ SUCCESS) (h2 : results ≠ WARNINGS) (h3 : results ≠ CANCELLED) :
    get_message_summary_text build SUCCESS = "Build succeeded!" ∧
    get_message_summary_text build WARNINGS =
      "Build Had Warnings" ++
        (if build.state_string = "" then "" else ": " ++ build.state_string) ∧
    get_message_summary_text build CANCELLED = "Build was cancelled" ∧
    get_message_summary_text build results =
      "BUILD FAILED" ++
        (if build.state_string = "" then "" else ": " ++ build.state_string) := by
  have hsfx : ∀ s : String,
      (if (!s.isEmpty) = true then ": " ++ s else "") =
        (if s = "" then "" else ": " ++ s) := by
    intro s
    by_cases h : s = ""
    · subst h; rfl
    · have hb : s.isEmpty = false := by
        cases hb : s.isEmpty
        · rfl
        · exact absurd ((String.isEmpty_iff s).mp hb) h
      simp [hb, h]
  refine ⟨rfl, ?_, rfl, ?_⟩
  · simp only [get_message_summary_text]
    rw [if_neg (by decide : ¬(WARNINGS = SUCCESS)), if_pos trivial, hsfx]
  · simp only [get_message_summary_text]
    rw [if_neg h1, if_neg h2, if_neg h3, hsfx]

/-- Claim C4, witnessed at a concrete build with a non-empty state string and
results = EXCEPTION. -/
theorem summary_text_rules_witness :
    get_message_summary_text
        ⟨FAILURE, "compiling", fun _ => none, 1, 1, [], none⟩ SUCCESS =
      "Build succeeded!" ∧
    get_message_summary_text
        ⟨FAILURE, "compiling", fun _ => none, 1, 1, [], none⟩ WARNINGS =
      "Build Had Warnings" ++
        (if ("compiling" : String) = "" then "" else ": " ++ "compiling") ∧
    get_message_summary_text
        ⟨FAILURE, "compiling", fun _ => none, 1, 1, [], none⟩ CANCELLED =
      "Build was cancelled" ∧
    get_message_summary_text
        ⟨FAILURE, "compiling", fun _ => none, 1, 1, [], none⟩ EXCEPTION =
      "BUILD FAILED" ++
        (if ("compiling" : String) = "" then "" else ": " ++ "compiling") :=
  summary_text_rules ⟨FAILURE, "compiling", fun _ => none, 1, 1, [], none⟩
    EXCEPTION (by decide) (by decide) (by decide)

/-- Claim C6: over the seven canonical result codes, get_detected_status_text
returns one of the nine fixed strings of spec section 4.1 and is never empty;
SUCCESS yields "restored build" exactly when mode contains "change" and
previous_results is known and differs from SUCCESS, else "passing build";
WARNINGS yields "problem in the build" and EXCEPTION "build exception". -/
theorem detected_status_text_total (mode : List String) (results : Nat)
    (previous_results : Option Nat) (h : results < 7) :
    (get_detected_status_text mode results previous_results ∈
        (["new failure", "failed build", "problem in the build", "restored build",
          "passing build", "build exception", "skipped build", "retry build",
          "cancelled build"] : List String) ∧
      get_detected_status_text mode results previous_results ≠ "") ∧
    get_detected_status_text mode SUCCESS previous_results =
      (if "change" ∈ mode ∧ previous_results ≠ none ∧
          previous_results ≠ some SUCCESS then
        "restored build"
      else
        "passing build") ∧
    get_detected_status_text mode WARNINGS previous_results =
      "problem in the build" ∧
    get_detected_status_text mode EXCEPTION previous_results = "build exception" := by
  refine ⟨⟨?_, ?_⟩, rfl, rfl, rfl⟩
  · interval_cases results <;>
      first
        | decide
        | (unfold get_detected_status_text
           split_ifs <;>
             first
               | decide
               | simp_all [SUCCESS, WARNINGS, FAILURE, SKIPPED, EXCEPTION,
                   RETRY, CANCELLED])
  · interval_cases results <;>
      first
        | decide
        | (unfold get_detected_status_text
           split_ifs <;> decide)

/-- Claim C6, witnessed at mode containing "change", results = FAILURE and a
known previous result. -/
theorem detected_status_text_total_witness :
    (get_detected_status_text ["change"] FAILURE (some SUCCESS) ∈
        (["new failure", "failed build", "problem in the build", "restored build",
          "passing build", "build exception", "skipped build", "retry build",
          "cancelled build"] : List String) ∧
      get_detected_status_text ["change"] FAILURE (some SUCCESS) ≠ "") ∧
    get_detected_status_text ["change"] SUCCESS (some SUCCESS) =
      (if "change" ∈ (["change"] : List String) ∧
          (some SUCCESS : Option Nat) ≠ none ∧
          (some SUCCESS : Option Nat) ≠ some SUCCESS then
        "restored build"
      else
        "passing build") ∧
    get_detected_status_text ["change"] WARNINGS (some SUCCESS) =
      "problem in the build" ∧
    get_detected_status_text ["change"] EXCEPTION (some SUCCESS) =
      "build exception" :=
  detected_status_text_total ["change"] FAILURE (some SUCCESS) (by decide)

/-- String.join distributes over cons. -/
theorem string_join_cons (s : String) (l : List String) :
    String.join (s :: l) = s ++ String.join l := by
  apply String.ext
  simp [String.data_append]

/-- A left fold whose step appends one line per element is the concatenation
of those lines after the initial accumulator. -/
theorem string_foldl_eq_join {α : Type} (f : String → α → String)
    (line : α → String) (hf : ∀ (text : String) (a : α), f text a = text ++ line a)
    (l : List α) : ∀ init : String,
      l.foldl f init = init ++ String.join (l.map line) := by
  induction l with
  | nil =>
      intro init
      rw [List.foldl_nil, List.map_nil,
        show String.join ([] : List String) = "" from rfl, String.append_empty]
  | cons a l ih =>
      intro init
      rw [List.foldl_cons, hf, ih, List.map_cons, string_join_cons,
        ← String.append_assoc]

/-- Claim C7: get_message_source_stamp_text emits, in sequence order, one
line per stamp of the spec's format, each line (including the last) ending
with a newline, and the empty stamp sequence yields the empty string. -/
theorem source_stamp_text_lines (stamps : List SourceStamp) :
    get_message_source_stamp_text stamps =
      String.join (stamps.map source_stamp_line_spec) ∧
    get_message_source_stamp_text ([] : List SourceStamp) = "" := by
  constructor
  · unfold get_message_source_stamp_text
    refine (string_foldl_eq_join _ source_stamp_line_spec ?hf stamps "").trans
      (String.empty_append _)
    case hf =>
      intro text ss
      simp only [source_stamp_line_spec]
      split_ifs <;> simp only [String.append_assoc, String.empty_append]
  · rfl

/-- Claim C8: get_projects_text joins a duplicate-free list with ", "; its
members are exactly the non-empty project fields of the stamps, or exactly
the master's title when no stamp has one. -/
theorem projects_text_dedup (stamps : List SourceStamp) (master : Master) :
    ∃ l : List String,
      get_projects_text stamps master = String.intercalate ", " l ∧
      l.Nodup ∧
      ∀ p : String, p ∈ l ↔
        ((∃ ss ∈ stamps, ss.project = some p ∧ p ≠ "") ∨
          ((¬∃ ss ∈ stamps, ∃ q : String, ss.project = some q ∧ q ≠ "") ∧
            p = master.title)) := by
  have hmem : ∀ p : String,
      p ∈ (stamps.filterMap fun ss =>
          if truthyOptStr ss.project then some (ss.project.getD "") else none) ↔
        (∃ ss ∈ stamps, ss.project = some p ∧ p ≠ "") := by
    intro p
    rw [List.mem_filterMap]
    constructor
    · rintro ⟨ss, hss, hf⟩
      refine ⟨ss, hss, ?_⟩
      cases hproj : ss.project with
      | none => rw [hproj] at hf; simp [truthyOptStr] at hf
      | some q =>
          rw [hproj] at hf
          by_cases hq : q = ""
          · subst hq
            rw [if_neg (by decide)] at hf
            simp at hf
          · have hq' : q.isEmpty = false := by
              cases hqe : q.isEmpty
              · rfl
              · exact absurd ((String.isEmpty_iff q).mp hqe) hq
            rw [if_pos (by simp [truthyOptStr, hq'])] at hf
            obtain rfl : q = p := by simpa using hf
            exact ⟨rfl, hq⟩
    · rintro ⟨ss, hss, hproj, hne⟩
      refine ⟨ss, hss, ?_⟩
      have hp' : p.isEmpty = false := by
        cases hpe : p.isEmpty
        · rfl
        · exact absurd ((String.isEmpty_iff p).mp hpe) hne
      rw [hproj, if_pos (by simp [truthyOptStr, hp'])]
      rfl
  simp only [get_projects_text]
  by_cases hempty :
      (stamps.filterMap fun ss =>
        if truthyOptStr ss.project then some (ss.project.getD "") else none).dedup = []
  · refine ⟨[master.title], ?_, List.nodup_singleton _, ?_⟩
    · rw [hempty]
      rfl
    · intro p
      have hno : ¬∃ ss ∈ stamps, ∃ q : String, ss.project = some q ∧ q ≠ "" := by
        rintro ⟨ss, hss, q, hq, hqe⟩
        have : q ∈ (stamps.filterMap fun ss =>
            if truthyOptStr ss.project then some (ss.project.getD "") else none) :=
          (hmem q).mpr ⟨ss, hss, hq, hqe⟩
        rw [← List.mem_dedup, hempty] at this
        exact absurd this (List.not_mem_nil q)
      constructor
      · intro hp
        refine Or.inr ⟨hno, ?_⟩
        simpa using hp
      · rintro (⟨ss, hss, hq, hqe⟩ | ⟨-, rfl⟩)
        · exact absurd ⟨ss, hss, p, hq, hqe⟩ hno
        · exact List.mem_singleton_self _
  · refine ⟨(stamps.filterMap fun ss =>
        if truthyOptStr ss.project then some (ss.project.getD "") else none).dedup,
      ?_, List.nodup_dedup _, ?_⟩
    · rw [if_neg (by simpa [List.isEmpty_iff] using hempty)]
    · intro p
      rw [List.mem_dedup, hmem p]
      constructor
      · exact Or.inl
      · rintro (h | ⟨hno, rfl⟩)
        · exact h
        · obtain ⟨x, hx⟩ := List.exists_mem_of_ne_nil _ hempty
          rw [List.mem_dedup, hmem x] at hx
          obtain ⟨ss, hss, hq, hqe⟩ := hx
          exact absurd ⟨ss, hss, x, hq, hqe⟩ hno

/-- Claim C5: in both format pipelines the preconfigured extra context is
merged after the computed base context and after the extension hook: on every
key it holds, the extra context wins; on every other key the post-hook value
survives; no key present before the merge is removed; and each pipeline
renders exactly this merged context. -/
theorem extra_context_final_precedence (f : Formatter) (hook : PyDict → PyDict)
    (getURLForBuild : Master → Nat → Nat → String) (mode : List String)
    (buildername : String) (build : Build) (master : Master)
    (blamelist : List String) (worker : String) (k : String) :
    ((f.ctx k).isSome = true →
        format_message_for_build_ctx f hook getURLForBuild mode buildername build
            master blamelist k = f.ctx k ∧
          formatMessageForMissingWorker_ctx f hook master worker k = f.ctx k) ∧
    (f.ctx k = none →
        format_message_for_build_ctx f hook getURLForBuild mode buildername build
            master blamelist k =
          hook (build_base_context getURLForBuild mode buildername build master
            blamelist) k ∧
          formatMessageForMissingWorker_ctx f hook master worker k =
            hook (missing_worker_base_context master worker) k) ∧
    ((hook (build_base_context getURLForBuild mode buildername build master
          blamelist) k).isSome = true →
      (format_message_for_build_ctx f hook getURLForBuild mode buildername build
          master blamelist k).isSome = true) ∧
    ((hook (missing_worker_base_context master worker) k).isSome = true →
      (formatMessageForMissingWorker_ctx f hook master worker k).isSome = true) ∧
    format_message_for_build f hook getURLForBuild mode buildername build master
        blamelist =
      renderMessage f (format_message_for_build_ctx f hook getURLForBuild mode
        buildername build master blamelist) ∧
    formatMessageForMissingWorker f hook master worker =
      renderMessage f (formatMessageForMissingWorker_ctx f hook master worker) := by
  refine ⟨?_, ?_, ?_, ?_, rfl, rfl⟩ <;>
    (cases hck : f.ctx k <;>
      simp [format_message_for_build_ctx, formatMessageForMissingWorker_ctx,
        PyDict.update, hck])

/-- Claim C9: a successful renderMessage yields the formatter's fixed type
tag and the body template's rendering of the context as the body; it carries
no subject when no subject template is configured, and when one is, the
subject is exactly that template's rendering of the same context. -/
theorem renderMessage_shape (f : Formatter) (ctx : PyDict) (m : MsgDict)
    (h : renderMessage f ctx = .ok m) :
    m.type = f.template_type ∧
    f.body_template.render ctx = .ok m.body ∧
    (f.subject_template = none → m.subject = none) ∧
    (∀ st : Template, f.subject_template = some st →
      ∃ s : String, m.subject = some s ∧ st.render ctx = .ok s) := by
  unfold renderMessage at h
  revert h
  cases hb : f.body_template.render ctx with
  | error e => intro h; cases h
  | ok body =>
      cases hst : f.subject_template with
      | none =>
          intro h
          cases h
          refine ⟨rfl, rfl, fun _ => rfl, ?_⟩
          intro st hc
          cases hc
      | some st =>
          intro h
          have h2 : (match st.render ctx with
              | .error e => (.error e : Except RenderErr MsgDict)
              | .ok subject =>
                  .ok { body := body, type := f.template_type,
                        subject := some subject }) = .ok m := h
          cases hs : st.render ctx with
          | error e =>
              rw [hs] at h2
              cases h2
          | ok subj =>
              rw [hs] at h2
              cases h2
              refine ⟨rfl, rfl, ?_, ?_⟩
              · intro hc
                cases hc
              · intro st' hst'
                cases hst'
                exact ⟨subj, rfl, hs⟩

/-- Claim C9, witnessed at a concrete formatter whose subject template is
configured, so the rendered subject is that template's rendering. -/
theorem renderMessage_shape_witness :
    sample_msg.type = sample_formatter.template_type ∧
    sample_formatter.body_template.render sample_ctx = .ok sample_msg.body ∧
    (sample_formatter.subject_template = none → sample_msg.subject = none) ∧
    (∀ st : Template, sample_formatter.subject_template = some st →
      ∃ s : String, sample_msg.subject = some s ∧
        st.render sample_ctx = .ok s) :=
  renderMessage_shape sample_formatter sample_ctx sample_msg rfl

/-- Claim C3: getTemplate fails with a ConfigurationError when truthy inline
content is combined with a truthy filename or directory (and so does the
constructor, before any rendering); with no inline content the directory
defaults to the bundled directory and the filename to the formatter's
default, and an absent file yields a template-not-found error. -/
theorem getTemplate_configuration_rules (df cls_ty : String)
    (fs : String → String → Option TmplSrc) (filename dirname : Option String)
    (content : Option TmplSrc) (subject_filename : Option String)
    (subject : Option TmplSrc) (template_type : Option String)
    (ctx : Option PyDict) :
    (truthyOptTmpl content = true →
        truthyOptStr filename = true ∨ truthyOptStr dirname = true →
        getTemplate df fs filename dirname content =
          .error (.configurationError
            "Only one of template or template path can be given")) ∧
    (content = none →
        getTemplate df fs filename dirname content =
          match fs (dirname.getD bundled_templates_dir) (filename.getD df) with
          | some src => .ok { src := src, strict := true }
          | none => .error (.templateNotFound (filename.getD df))) ∧
    (truthyOptTmpl content = true →
        truthyOptStr filename = true ∨ truthyOptStr dirname = true →
        MessageFormatterBase_init df cls_ty fs dirname filename content
            subject_filename subject template_type ctx =
          .error (.configurationError
            "Only one of template or template path can be given")) := by
  have herr : truthyOptTmpl content = true →
      truthyOptStr filename = true ∨ truthyOptStr dirname = true →
      getTemplate df fs filename dirname content =
        .error (.configurationError
          "Only one of template or template path can be given") := by
    intro hc hfd
    unfold getTemplate
    rw [if_pos ⟨hc, hfd⟩]
  refine ⟨herr, ?_, ?_⟩
  · intro hc
    subst hc
    rfl
  · intro hc hfd
    unfold MessageFormatterBase_init
    rw [herr hc hfd]

/-- Claim C10: empty inline template content is treated as if no inline
content was supplied (getTemplate behaves identically to the no-content
call, so no ConfigurationError and the file path is used), and an
empty-string subject in the constructor yields no subject template. -/
theorem empty_inline_treated_as_absent (cls_fn cls_ty : String)
    (fs : String → String → Option TmplSrc) (filename dirname : Option String)
    (template_dir template_filename : Option String) (template : Option TmplSrc)
    (subject_filename : Option String) (template_type : Option String)
    (ctx : Option PyDict) (f : Formatter)
    (hsf : truthyOptStr subject_filename = false)
    (hinit : MessageFormatterBase_init cls_fn cls_ty fs template_dir
        template_filename template subject_filename (some ([] : TmplSrc))
        template_type ctx = .ok f) :
    getTemplate cls_fn fs filename dirname (some ([] : TmplSrc)) =
      getTemplate cls_fn fs filename dirname none ∧
    f.subject_template = none := by
  constructor
  · rfl
  · unfold MessageFormatterBase_init at hinit
    revert hinit
    cases hb : getTemplate cls_fn fs template_filename template_dir template with
    | error e => intro hinit; cases hinit
    | ok body =>
        intro hinit
        have hinit' :
            (if truthyOptStr subject_filename = true ∨
                truthyOptTmpl (some ([] : TmplSrc)) = true then
              match getTemplate cls_fn fs subject_filename template_dir
                  (some ([] : TmplSrc)) with
              | .error e => (.error e : Except TemplateError Formatter)
              | .ok st =>
                  .ok { body_template := body
                        subject_template := some st
                        template_type := template_type.getD cls_ty
                        ctx := ctx.getD (fun _ => none) }
            else
              .ok { body_template := body
                    subject_template := none
                    template_type := template_type.getD cls_ty
                    ctx := ctx.getD (fun _ => none) }) = .ok f := hinit
        rw [if_neg (by simp [hsf, truthyOptTmpl])] at hinit'
        cases hinit'
        rfl

/-- Claim C10, witnessed at a constructor call that loads the bundled default
file and passes an empty subject. -/
theorem empty_inline_treated_as_absent_witness :
    getTemplate "default_mail.txt" sample_fs (some "f") (some "d")
        (some ([] : TmplSrc)) =
      getTemplate "default_mail.txt" sample_fs (some "f") (some "d") none ∧
    sample_file_formatter.subject_template = none :=
  empty_inline_treated_as_absent "default_mail.txt" "plain" sample_fs
    (some "f") (some "d") none none none none none none sample_file_formatter
    rfl rfl

/-- A strict rendering with a referenced key absent from the context always
raises. -/
theorem render_strict_of_missing (ctx : PyDict) (k : String) (src : TmplSrc)
    (hk : k ∈ referencedVariables src) (hmiss : ctx k = none) :
    ∃ e : RenderErr, renderToks true ctx src = .error e := by
  induction src with
  | nil => simp [referencedVariables] at hk
  | cons t rest ih =>
      cases t with
      | lit s =>
          obtain ⟨e, he⟩ := ih (by simpa [referencedVariables] using hk)
          exact ⟨e, by simp [renderToks, he]⟩
      | var k2 =>
          by_cases hkk : k2 = k
          · subst hkk
            exact ⟨.undefinedVariable k2, by simp [renderToks, hmiss]⟩
          · have hk' : k ∈ referencedVariables rest := by
              simp only [referencedVariables, List.mem_cons] at hk
              exact hk.resolve_left (fun h => hkk h.symm)
            cases hc : ctx k2 with
            | none => exact ⟨.undefinedVariable k2, by simp [renderToks, hc]⟩
            | some v =>
                obtain ⟨e, he⟩ := ih hk'
                exact ⟨e, by simp [renderToks, hc, he]⟩

/-- A non-strict rendering never fails: it yields the lenient rendering in
which absent keys become the empty string. -/
theorem render_lenient_eq (ctx : PyDict) (src : TmplSrc) :
    renderToks false ctx src = .ok (renderLenient ctx src) := by
  induction src with
  | nil => rfl
  | cons t rest ih =>
      cases t with
      | lit s => simp [renderToks, renderLenient, ih]
      | var k =>
          cases hc : ctx k <;>
            simp [renderToks, renderLenient, hc, ih, String.empty_append]

/-- Claim C1 counterexample: a template compiled from inline content that
references the context key "x", rendered with a context lacking "x", does
not raise: it succeeds and substitutes the empty string. -/
theorem inline_template_renders_missing_key_as_empty :
    getTemplate "default_mail.txt" (fun _ _ => none) none none
        (some [Tok.var "x"]) =
      .ok { src := [Tok.var "x"], strict := false } ∧
    Template.render { src := [Tok.var "x"], strict := false }
        (fun _ => none) = .ok "" :=
  ⟨rfl, rfl⟩

/-- Claim C1 as amended: a template loaded from a file renders strictly, so a
context lacking a key the template references makes rendering raise; but a
template built from non-empty inline content renders leniently, never
raising, substituting the empty string for every missing key. -/
theorem template_strict_for_files_lenient_for_inline (df : String)
    (fs : String → String → Option TmplSrc) (filename dirname : Option String)
    (src : TmplSrc) (tf ti : Template) (ctx : PyDict) (k : String)
    (hfile : getTemplate df fs filename dirname none = .ok tf)
    (hk : k ∈ referencedVariables tf.src) (hmiss : ctx k = none)
    (hne : src ≠ []) (hinline : getTemplate df fs none none (some src) = .ok ti) :
    (∃ e : RenderErr, tf.render ctx = .error e) ∧
    ti.render ctx = .ok (renderLenient ctx ti.src) := by
  have hred : getTemplate df fs filename dirname none =
      match fs (dirname.getD bundled_templates_dir) (filename.getD df) with
      | some s => .ok { src := s, strict := true }
      | none => .error (.templateNotFound (filename.getD df)) := rfl
  rw [hred] at hfile
  have hstrict : tf.strict = true := by
    cases hfs : fs (dirname.getD bundled_templates_dir) (filename.getD df) <;>
      rw [hfs] at hfile
    · cases hfile
    · cases hfile
      rfl
  have htr : truthyOptTmpl (some src) = true := by
    cases src with
    | nil => exact absurd rfl hne
    | cons a l => rfl
  have hti : ti = { src := src, strict := false } := by
    unfold getTemplate at hinline
    rw [if_neg (by simp [truthyOptStr]), if_pos htr] at hinline
    cases hinline
    rfl
  constructor
  · obtain ⟨e, he⟩ := render_strict_of_missing ctx k tf.src hk hmiss
    refine ⟨e, ?_⟩
    unfold Template.render
    rw [hstrict]
    exact he
  · rw [hti]
    exact render_lenient_eq ctx src

/-- Claim C1 as amended, witnessed at a strict file template referencing "x"
and a lenient inline template, both rendered over the empty context. -/
theorem template_strict_for_files_lenient_for_inline_witness :
    (∃ e : RenderErr,
      Template.render { src := [Tok.var "x"], strict := true }
          (fun _ => none) = .error e) ∧
    Template.render { src := [Tok.var "y"], strict := false }
        (fun _ => none) =
      .ok (renderLenient (fun _ => none)
        (Template.mk [Tok.var "y"] false).src) :=
  template_strict_for_files_lenient_for_inline "default_mail.txt"
    sample_fs_var none none [Tok.var "y"]
    { src := [Tok.var "x"], strict := true }
    { src := [Tok.var "y"], strict := false }
    (fun _ => none) "x" rfl (by simp [referencedVariables]) rfl
    (by decide) rfl

end Buildbot
